import Mathlib

/-!
A shallow embedding of pytube's core developer interface
(`pytube/__main__.py`, class `YouTube`) together with models of the
collaborator modules the spec treats as external (transport, config
extractor, descrambler, signature resolver, query-string utility).

The orchestration in `YouTube.__init__`, `prefetch`, `init`,
`prefetch_init`, `initialize_stream_objects`, `streams`, and the two
callback-registration methods is translated statement by statement from
the source.  Python's in-place dictionary mutation is rendered as
explicit state passing: each stage returns the updated session together
with an optional error, and a raised exception is modelled as returning
the state mutated so far paired with the error value (mirroring the fact
that a Python exception leaves prior mutations in place).
-/

set_option autoImplicit false

namespace Pytube

/-- Errors surfaced by the pipeline.  The named stages come from the
spec's error taxonomy; `typeError`, `attributeError` and `keyError`
model the corresponding Python runtime errors raised when a value of an
unexpected shape is used. -/
inductive Err where
  | configExtractionError
  | manifestParseError
  | signatureResolutionError
  | typeError
  | attributeError (name : String)
  | keyError (key : String)
  deriving DecidableEq, Repr

/-- A Raw Manifest Entry: a flat mapping of string keys to string
values describing one stream variant. -/
abbrev RawEntry : Type := List (String × String)

/-- A dynamically typed Python value as it occurs in the session's
`vid_info` slot and in the config/metadata dictionaries: `None`, a raw
string, a descrambled manifest (ordered sequence of Raw Manifest
Entries), a nested string-keyed dictionary, or a parsed JSON payload
(kept opaque: the source only forwards it). -/
inductive Val where
  | vnone
  | vstr (s : String)
  | ventries (l : List RawEntry)
  | vdict (d : List (String × Val))
  | vjson (s : String)

/-- A string-keyed Python dictionary with `Val` values, as an ordered
association list (Python dictionaries preserve insertion order). -/
abbrev Dict : Type := List (String × Val)

/-- First-match lookup in an association list (Python `d[k]` /
`k in d`). -/
def mlookup {α : Type} : List (String × α) → String → Option α
  | [], _ => none
  | (k, v) :: rest, key => if k = key then some v else mlookup rest key

/-- Python `d[k] = v`: update the first binding of `k` in place, or
append a new binding at the end (insertion order is preserved). -/
def mset {α : Type} : List (String × α) → String → α → List (String × α)
  | [], key, val => [(key, val)]
  | (k, v) :: rest, key, val =>
      if k = key then (k, val) :: rest else (k, v) :: mset rest key val

/-- Python `{k: v for k, v in pairs}`: build a dictionary from pairs,
later duplicates overwriting earlier ones. -/
def dictOfPairs (pairs : List (String × String)) : Dict :=
  pairs.foldl (fun d kv => mset d kv.1 (Val.vstr kv.2)) []

/-- Numeric value of a hexadecimal digit, if any. -/
def hexVal (c : Char) : Option Nat :=
  if '0' ≤ c ∧ c ≤ '9' then some (c.toNat - '0'.toNat)
  else if 'a' ≤ c ∧ c ≤ 'f' then some (c.toNat - 'a'.toNat + 10)
  else if 'A' ≤ c ∧ c ≤ 'F' then some (c.toNat - 'A'.toNat + 10)
  else none

/-- Percent-decoding of URL-encoded text: `%hh` becomes the coded
character, `+` becomes a space, invalid escapes are kept verbatim. -/
def percentDecode : List Char → List Char
  | [] => []
  | '+' :: rest => ' ' :: percentDecode rest
  | '%' :: c1 :: c2 :: rest =>
      match hexVal c1, hexVal c2 with
      | some hi, some lo => Char.ofNat (16 * hi + lo) :: percentDecode rest
      | _, _ => '%' :: percentDecode (c1 :: c2 :: rest)
  | c :: rest => c :: percentDecode rest

/-- Split a character list on every occurrence of the separator; the
empty list yields one empty piece, as Python's `split` does. -/
def splitOnChar (c : Char) : List Char → List (List Char)
  | [] => [[]]
  | x :: xs =>
      let r := splitOnChar c xs
      if x = c then [] :: r
      else
        match r with
        | [] => [[x]]
        | g :: gs => (x :: g) :: gs

/-- Split a character list at the first occurrence of the separator,
returning the parts before and after it, or `none` when absent. -/
def splitFirst (c : Char) : List Char → Option (List Char × List Char)
  | [] => none
  | x :: xs =>
      if x = c then some ([], xs)
      else
        match splitFirst c xs with
        | none => none
        | some (a, b) => some (x :: a, b)

/-- Modelled from the spec: the query-string decoding utility
(`pytube.compat.parse_qsl`, not under `src/`; the spec treats
"low-level URL-component parsing and query-string decoding" as a pure
utility).  Pairs are separated by `&`, keys from values by the first
`=`; names and values are percent-decoded; fields without `=` and empty
fields are skipped, as CPython's non-strict `parse_qsl` does. -/
def parse_qsl (q : String) : List (String × String) :=
  (splitOnChar '&' q.data).filterMap fun f =>
    if f = [] then none
    else
      match splitFirst '=' f with
      | none => none
      | some (k, v) =>
          some (String.mk (percentDecode k), String.mk (percentDecode v))

/-- `parse_qsl` applied to the dynamically typed `vid_info` slot:
`None` decodes to no pairs (as in CPython), a string is decoded, and
any other shape (such as the dictionary a previous `init()` left
behind) is a Python type error. -/
def parse_qsl_val : Val → Except Err (List (String × String))
  | Val.vnone => Except.ok []
  | Val.vstr q => Except.ok (parse_qsl q)
  | _ => Except.error Err.typeError

/-- Modelled from the spec: one variant of the Descrambler's input — a
single field `key=value` with both sides percent-encoded; a field
without `=` is malformed delimiter structure.  An empty variant is
likewise malformed. -/
def parseEntry (v : List Char) : Except Err RawEntry :=
  if v = [] then Except.error Err.manifestParseError
  else
    (splitOnChar '&' v).mapM fun f =>
      match splitFirst '=' f with
      | none => Except.error Err.manifestParseError
      | some (k, w) =>
          Except.ok (String.mk (percentDecode k), String.mk (percentDecode w))

/-- Modelled from the spec: the Descrambler
(`pytube.mixins.apply_descrambler`'s decoding core, not under `src/`).
`descramble(manifestString) -> sequence<RawManifestEntry>`: variants are
separated by one delimiter (`;` in the spec's scenario) and key-value
pairs within a variant by another (`&`), values percent-encoded; an
empty string yields an empty sequence (not an error); malformed
delimiter structure fails with `ManifestParseError`; variant order is
preserved. -/
def descramble (s : String) : Except Err (List RawEntry) :=
  if s.data = [] then Except.ok []
  else (splitOnChar ';' s.data).mapM parseEntry

/-- Modelled from the spec: `pytube.mixins.apply_descrambler(dct, key)`
(not under `src/`).  Descrambles the manifest string stored under `key`
in place, so that the key "now holds an ordered sequence of Raw
Manifest Entry"; an absent manifest key is not an error, only an empty
result for that category.  A value that is not a string (and not
absent) is a Python type error. -/
def apply_descrambler (d : Dict) (key : String) : Except Err Dict :=
  match mlookup d key with
  | none => Except.ok (mset d key (Val.ventries []))
  | some (Val.vstr s) =>
      (descramble s).map fun l => mset d key (Val.ventries l)
  | some _ => Except.error Err.typeError

/-- Modelled from the spec: the elementary string operations of a
signature transform — "reverse, slice, swap-at-index". -/
inductive SigOp where
  | reverse
  | slice (n : Nat)
  | swap (n : Nat)
  deriving DecidableEq, Repr

/-- Swap the characters at positions `0` and `n % length` (identity on
the empty token). -/
def swapAt (n : Nat) (l : List Char) : List Char :=
  if l.length = 0 then l
  else
    let i := n % l.length
    (l.set 0 (l.getD i ' ')).set i (l.getD 0 ' ')

/-- Apply one elementary operation to a token. -/
def applyOp (l : List Char) : SigOp → List Char
  | SigOp.reverse => l.reverse
  | SigOp.slice n => l.drop n
  | SigOp.swap n => swapAt n l

/-- Modelled from the spec: `Transform.apply(token) -> token'` — the
elementary operations applied left-to-right to the token; a pure
function of the operation list and the input. -/
def applyTransform (ops : List SigOp) (tok : String) : String :=
  String.mk (ops.foldl applyOp tok.data)

/-- Modelled from the spec: bootstrap-script text, abstracted to what
the Signature Resolver can extract from it — the ordered list of
elementary operations encoded in the script, or nothing when the script
has "no recognizable entry-point function".  The spec places the
concrete derivation algorithm out of scope and specifies only this
contract. -/
structure ScriptText where
  ops : Option (List SigOp)

/-- Modelled from the spec: `deriveTransform(scriptText) -> Transform`;
fails with `SignatureResolutionError` if the entry point or operation
table cannot be located.  Deterministic: the same script text always
yields the same transform. -/
def deriveTransform (st : ScriptText) : Except Err (List SigOp) :=
  match st.ops with
  | some ops => Except.ok ops
  | none => Except.error Err.signatureResolutionError

/-- Modelled from the spec: apply the transform to one Raw Manifest
Entry's access token (key `"s"`, the scrambled token of the spec's
scenario); an entry without a token is left unchanged. -/
def signEntry (ops : List SigOp) (e : RawEntry) : RawEntry :=
  match mlookup e "s" with
  | none => e
  | some tok => mset e "s" (applyTransform ops tok)

/-- Modelled from the spec: `pytube.mixins.apply_signature(config_args,
fmt, js)` (not under `src/`).  Computes the signature transform from
the script text, then applies it to the access token of every Raw
Manifest Entry stored under `fmt`.  A script that was never fetched
(`None`) is a Python type error; an underivable transform fails with
`SignatureResolutionError` before any entry is touched; the value under
`fmt` is expected to be a descrambled sequence. -/
def apply_signature (d : Dict) (key : String) (js : Option ScriptText) :
    Except Err Dict :=
  match js with
  | none => Except.error Err.typeError
  | some st =>
      match deriveTransform st with
      | Except.error e => Except.error e
      | Except.ok ops =>
          match mlookup d key with
          | some (Val.ventries l) =>
              Except.ok (mset d key (Val.ventries (l.map (signEntry ops))))
          | _ => Except.error Err.typeError

/-- Modelled from the spec: the step `apply_mixin(config_args,
'player_response', json.loads)` (`pytube.helpers.apply_mixin`, not
under `src/`).  The spec assigns no failure to the player-response
step; the stored string is replaced by its parsed payload (kept opaque)
and an absent key leaves the mapping unchanged. -/
def apply_mixin_player_response (d : Dict) : Dict :=
  match mlookup d "player_response" with
  | some (Val.vstr s) => mset d "player_response" (Val.vjson s)
  | _ => d

/-- The embedded player configuration: a nested mapping whose `args`
entry holds the manifest strings and auxiliary payloads
(`self.player_config['args']` in the source). -/
structure PlayerConfig where
  args : Dict

/-- Modelled from the spec: raw page markup, abstracted to its
extractable content — the embedded player-configuration structure when
the config marker is present, nothing when the marker is absent
(`extractConfig` "fails with ConfigExtractionError when the marker is
absent"; the concrete markup parsing is a collaborator not under
`src/`). -/
structure Page where
  embedded : Option PlayerConfig

/-- Modelled from the spec: `pytube.extract.get_ytplayer_config`
(Config Extractor, not under `src/`).  Markup that was never fetched
(`None`) is a Python type error; markup without the marker fails with
`ConfigExtractionError`; otherwise the embedded structure is
returned. -/
def get_ytplayer_config : Option Page → Except Err PlayerConfig
  | none => Except.error Err.typeError
  | some p =>
      match p.embedded with
      | some cfg => Except.ok cfg
      | none => Except.error Err.configExtractionError

/-- A user callback slot (callbacks are never invoked by the modelled
code, so their concrete type is immaterial; an identifier stands in). -/
abbrev Callback := Nat

/-- The Monostate: the dictionary shared by reference between all
Stream instances of one session, holding the user-defined callback
slots (`self.stream_monostate` in the source; Borg pattern). -/
structure Monostate where
  on_progress : Option Callback
  on_complete : Option Callback

/-- A Stream Descriptor as constructed by `initialize_stream_objects`:
`Stream(stream=..., player_config=..., monostate=...)`.  The monostate
argument is a reference to the session's single shared cell, recorded
here as the unit reference to that cell (`pytube.Stream` itself is not
under `src/`; only the constructor call shape is needed). -/
structure Stream where
  stream : RawEntry
  player_config : PlayerConfig
  monostate_ref : Unit

/-- The Stream Collection wrapper: `StreamQuery([s for s in
self.fmt_streams])` (`pytube.StreamQuery` is not under `src/`; the
claims only need the sequence it wraps). -/
structure StreamQuery where
  fmt_streams : List Stream

/-- The session state: the attributes bound in `YouTube.__init__`
(lines 49-75 of the source), plus the per-instance cache slot of the
`memoize` decorator on the `streams` property (modelled from the spec:
"computed lazily on first access, cached thereafter"). -/
structure Session where
  js : Option ScriptText
  js_url : Option String
  vid_info : Val
  vid_info_url : Option String
  watch_html : Option Page
  player_config : Option PlayerConfig
  fmt_streams : List Stream
  video_id : String
  watch_url : String
  stream_monostate : Monostate
  streams_cache : Option StreamQuery

/-- Attribute lookup on a session restricted to monostate-valued
attributes, mirroring Python's `getattr`: of the attributes bound in
`__init__`, the only monostate-typed one is `stream_monostate`; looking
up any other name (such as `_monostate`) finds nothing and raising
`AttributeError` is the caller's obligation. -/
def Session.monostateAttr (s : Session) (name : String) : Option Monostate :=
  if name = "stream_monostate" then some s.stream_monostate else none

/-- Modelled from the spec: the transport collaborator (`fetch` /
order-preserving batch `fetchAll`) together with the Config Extractor's
URL-derivation helpers (`extract.video_id`, `extract.watch_url`,
`extract.video_info_url`, `extract.js_url` — none under `src/`).  The
theorems quantify over every such environment; fetches are modelled on
their success path (the claims under verification only concern
successful transport). -/
structure World where
  video_id_of : Option String → String
  watch_url_of : String → String
  pageOf : String → Page
  video_info_url_of : String → String → Page → String
  js_url_of : Page → String
  scriptOf : String → ScriptText
  infoOf : String → String

/-- The progressive manifest key (`'url_encoded_fmt_stream_map'`). -/
def progressive_fmts : String := "url_encoded_fmt_stream_map"

/-- The adaptive manifest key (`'adaptive_fmts'`). -/
def adaptive_fmts : String := "adaptive_fmts"

/-- `YouTube.prefetch` (source lines 120-138): fetch the watch page,
derive the metadata-request URL and the script URL from it, then fetch
the script text and the metadata payload as an order-preserving batch,
storing all artifacts on the session. -/
def prefetch (w : World) (s : Session) : Session :=
  let watch_html := w.pageOf s.watch_url
  let vid_info_url := w.video_info_url_of s.video_id s.watch_url watch_html
  let js_url := w.js_url_of watch_html
  let js := w.scriptOf js_url
  let vid_info := w.infoOf vid_info_url
  { s with
      watch_html := some watch_html
      vid_info_url := some vid_info_url
      js_url := some js_url
      js := some js
      vid_info := Val.vstr vid_info }

/-- `YouTube.initialize_stream_objects` (source lines 140-159): read
`self.player_config['args'][fmt]` and append one `Stream` per manifest
entry to `self.fmt_streams`.  Subscripting an unset config is a Python
type error and a missing key a key error; a value that is not a
descrambled sequence cannot arise through `init()` (descrambling always
precedes construction) and is modelled as a type error. -/
def initialize_stream_objects (s : Session) (fmt : String) :
    Session × Option Err :=
  match s.player_config with
  | none => (s, some Err.typeError)
  | some cfg =>
      match mlookup cfg.args fmt with
      | none => (s, some (Err.keyError fmt))
      | some (Val.ventries l) =>
          ({ s with
              fmt_streams :=
                s.fmt_streams ++ l.map fun e => Stream.mk e cfg () },
            none)
      | some _ => (s, some Err.typeError)

/-- `YouTube.init` (source lines 85-118), statement by statement:
re-parse `vid_info` as a flat mapping, extract the player config from
the page markup, descramble the progressive and adaptive manifests in
both the metadata mapping and the config args, apply the signature to
the config manifests, parse the player response, and build the Stream
instances for both manifest categories.  A raised exception is the
`some`-error component, paired with the state mutated so far. -/
def init (s : Session) : Session × Option Err :=
  match parse_qsl_val s.vid_info with
  | Except.error e => (s, some e)
  | Except.ok pairs =>
      let v0 : Dict := dictOfPairs pairs
      let s1 := { s with vid_info := Val.vdict v0 }
      match get_ytplayer_config s.watch_html with
      | Except.error e => (s1, some e)
      | Except.ok cfg =>
          let s2 := { s1 with player_config := some cfg }
          match apply_descrambler v0 progressive_fmts with
          | Except.error e => (s2, some e)
          | Except.ok v1 =>
              let s3 := { s2 with vid_info := Val.vdict v1 }
              match apply_descrambler v1 adaptive_fmts with
              | Except.error e => (s3, some e)
              | Except.ok v2 =>
                  let s4 := { s3 with vid_info := Val.vdict v2 }
                  match apply_descrambler cfg.args progressive_fmts with
                  | Except.error e => (s4, some e)
                  | Except.ok a1 =>
                      let s5 := { s4 with player_config := some ⟨a1⟩ }
                      match apply_descrambler a1 adaptive_fmts with
                      | Except.error e => (s5, some e)
                      | Except.ok a2 =>
                          let s6 := { s4 with player_config := some ⟨a2⟩ }
                          match apply_signature a2 progressive_fmts s.js with
                          | Except.error e => (s6, some e)
                          | Except.ok a3 =>
                              let s7 := { s4 with player_config := some ⟨a3⟩ }
                              match apply_signature a3 adaptive_fmts s.js with
                              | Except.error e => (s7, some e)
                              | Except.ok a4 =>
                                  let a5 := apply_mixin_player_response a4
                                  let s8 := { s4 with player_config := some ⟨a5⟩ }
                                  let r1 := initialize_stream_objects s8 progressive_fmts
                                  match r1.2 with
                                  | some e => (r1.1, some e)
                                  | none => initialize_stream_objects r1.1 adaptive_fmts

/-- `YouTube.prefetch_init` (source lines 80-83): `self.prefetch()`
then `self.init()`. -/
def prefetch_init (w : World) (s : Session) : Session × Option Err :=
  init (prefetch w s)

/-- `YouTube.__init__` (source lines 31-78): bind the session
attributes, derive the video id and watch URL from the given URL, and,
when a URL is given and prefetching is not deferred, run
`prefetch_init` eagerly. -/
def YouTube.new (w : World) (url : Option String)
    (defer_prefetch_init : Bool)
    (on_progress_callback on_complete_callback : Option Callback) :
    Session × Option Err :=
  let vid := w.video_id_of url
  let base : Session :=
    { js := none
      js_url := none
      vid_info := Val.vnone
      vid_info_url := none
      watch_html := none
      player_config := none
      fmt_streams := []
      video_id := vid
      watch_url := w.watch_url_of vid
      stream_monostate :=
        { on_progress := on_progress_callback
          on_complete := on_complete_callback }
      streams_cache := none }
  let urlTruthy : Bool := match url with | some u => u != "" | none => false
  if urlTruthy && !defer_prefetch_init then prefetch_init w base
  else (base, none)

/-- The `streams` property (source lines 161-165) under its `memoize`
decorator (`pytube.helpers.memoize`, not under `src/`; modelled from
the spec: "computed lazily on first access, cached thereafter").  A
cache hit returns the cached collection; a miss wraps the current
stream list and fills the cache. -/
def streams (s : Session) : StreamQuery × Session :=
  match s.streams_cache with
  | some q => (q, s)
  | none =>
      let q : StreamQuery := ⟨s.fmt_streams⟩
      (q, { s with streams_cache := some q })

/-- `YouTube.register_on_progress_callback` (source lines 167-174):
`self._monostate['on_progress'] = func`.  The attribute lookup
`self._monostate` precedes the item assignment; `__init__` never binds
an attribute of that name (it binds `stream_monostate`), so the lookup
raises `AttributeError` and the monostate is left untouched. -/
def register_on_progress_callback (s : Session) (func : Callback) :
    Session × Option Err :=
  match s.monostateAttr "_monostate" with
  | some m =>
      ({ s with stream_monostate := { m with on_progress := some func } },
        none)
  | none => (s, some (Err.attributeError "_monostate"))

/-- `YouTube.register_on_complete_callback` (source lines 176-182):
`self._monostate['on_complete'] = func`, with the same attribute lookup
as the progress variant. -/
def register_on_complete_callback (s : Session) (func : Callback) :
    Session × Option Err :=
  match s.monostateAttr "_monostate" with
  | some m =>
      ({ s with stream_monostate := { m with on_complete := some func } },
        none)
  | none => (s, some (Err.attributeError "_monostate"))

/-- A session's current config args (`self.player_config['args']`),
empty when the config was never extracted. -/
def configArgs (s : Session) : Dict :=
  match s.player_config with
  | some cfg => cfg.args
  | none => []

/-- The config args after init's signing and player-response steps,
given the descrambled args `a2` whose manifest slots held `lp` and
`la`: both manifest sequences signed entry by entry, then the player
response parsed. -/
def signedArgs (a2 : Dict) (ops : List SigOp) (lp la : List RawEntry) : Dict :=
  apply_mixin_player_response
    (mset (mset a2 progressive_fmts (Val.ventries (lp.map (signEntry ops))))
      adaptive_fmts (Val.ventries (la.map (signEntry ops))))

/-- A manifest slot that is absent or holds the empty string. -/
def manifestEmpty (v : Option Val) : Prop :=
  v = none ∨ v = some (Val.vstr "")

/-- An empty monostate: no callbacks registered. -/
def sampleMono : Monostate := ⟨none, none⟩

/-- A freshly constructed session: the attribute values bound by
`__init__` before any prefetch. -/
def freshSession : Session :=
  { js := none, js_url := none, vid_info := Val.vnone, vid_info_url := none,
    watch_html := none, player_config := none, fmt_streams := [],
    video_id := "vid", watch_url := "wurl", stream_monostate := sampleMono,
    streams_cache := none }

/-- A player config whose args hold one progressive manifest variant
with scrambled token `"AB"` and a player-response payload. -/
def sampleCfg : PlayerConfig :=
  ⟨[(progressive_fmts, Val.vstr "s=AB&url=u"),
    ("player_response", Val.vstr "pr")]⟩

/-- A prefetched session: script text encoding the one-step transform
`reverse`, a metadata payload carrying the progressive manifest
(percent-encoded), and page markup embedding `sampleCfg`. -/
def sampleSession : Session :=
  { freshSession with
      js := some ⟨some [SigOp.reverse]⟩
      vid_info := Val.vstr "url_encoded_fmt_stream_map=s%3DAB"
      watch_html := some ⟨some sampleCfg⟩ }

/-- The metadata payload of `sampleSession`: a query string binding the
progressive manifest key to the (percent-encoded) manifest `s=AB`. -/
def sampleQ : String := "url_encoded_fmt_stream_map=s%3DAB"

/-- `sampleSession`'s metadata mapping after descrambling the
progressive category. -/
def sampleD1 : Dict := [(progressive_fmts, Val.ventries [[("s", "AB")]])]

/-- `sampleSession`'s metadata mapping after descrambling both
categories. -/
def sampleD2 : Dict :=
  [(progressive_fmts, Val.ventries [[("s", "AB")]]),
   (adaptive_fmts, Val.ventries [])]

/-- `sampleCfg`'s args after descrambling the progressive category. -/
def sampleA1 : Dict :=
  [(progressive_fmts, Val.ventries [[("s", "AB"), ("url", "u")]]),
   ("player_response", Val.vstr "pr")]

/-- `sampleCfg`'s args after descrambling both categories. -/
def sampleA2 : Dict :=
  [(progressive_fmts, Val.ventries [[("s", "AB"), ("url", "u")]]),
   ("player_response", Val.vstr "pr"),
   (adaptive_fmts, Val.ventries [])]

/-- A player config in which both manifest categories are absent. -/
def sampleEmptyCfg : PlayerConfig := ⟨[("player_response", Val.vstr "pr")]⟩

/-- A prefetched session in which both manifest categories are absent
from the config and the metadata payload is empty. -/
def emptyManifestSession : Session :=
  { freshSession with
      js := some ⟨some []⟩
      vid_info := Val.vstr ""
      watch_html := some ⟨some sampleEmptyCfg⟩ }

/-- A prefetched session whose page markup lacks the config marker. -/
def noMarkerSession : Session :=
  { freshSession with
      vid_info := Val.vstr "a=b"
      watch_html := some ⟨none⟩ }

/-- A prefetched session whose script text has no recognizable
entry-point function (no transform derivable). -/
def badScriptSession : Session :=
  { sampleSession with js := some ⟨none⟩ }

theorem mlookup_mset_self {α : Type} (d : List (String × α)) (k : String)
    (v : α) : mlookup (mset d k v) k = some v := by
  induction d with
  | nil => simp [mset, mlookup]
  | cons kv rest ih =>
      obtain ⟨k1, v1⟩ := kv
      by_cases h : k1 = k <;> simp [mset, mlookup, h, ih]

theorem mlookup_mset_ne {α : Type} (d : List (String × α)) (k k' : String)
    (v : α) (h : k' ≠ k) : mlookup (mset d k v) k' = mlookup d k' := by
  induction d with
  | nil =>
      simp only [mset, mlookup]
      rw [if_neg (fun e : k = k' => h e.symm)]
  | cons kv rest ih =>
      obtain ⟨k1, v1⟩ := kv
      by_cases h1 : k1 = k <;> by_cases h2 : k1 = k' <;>
        simp_all [mset, mlookup]

theorem mlookup_mixin_ne (d : Dict) (k : String)
    (h : k ≠ "player_response") :
    mlookup (apply_mixin_player_response d) k = mlookup d k := by
  unfold apply_mixin_player_response
  split
  · rw [mlookup_mset_ne _ _ _ _ h]
  · rfl

theorem apply_descrambler_ok {d d' : Dict} {k : String}
    (h : apply_descrambler d k = Except.ok d') :
    ∃ l, d' = mset d k (Val.ventries l) := by
  unfold apply_descrambler at h
  split at h
  · exact ⟨[], by cases h; rfl⟩
  · next s heq =>
      cases hd : descramble s with
      | error e => rw [hd] at h; cases h
      | ok l => rw [hd] at h; exact ⟨l, by cases h; rfl⟩
  · cases h

theorem descramble_nil : descramble "" = Except.ok [] := rfl

theorem descr_empty (d : Dict) (k : String)
    (h : manifestEmpty (mlookup d k)) :
    apply_descrambler d k = Except.ok (mset d k (Val.ventries [])) := by
  rcases h with h | h <;>
    simp [apply_descrambler, h, descramble_nil, Except.map]

theorem mlookup_signedArgs_prog (a2 : Dict) (ops : List SigOp)
    (lp la : List RawEntry) :
    mlookup (signedArgs a2 ops lp la) progressive_fmts
      = some (Val.ventries (lp.map (signEntry ops))) := by
  unfold signedArgs
  rw [mlookup_mixin_ne _ _ (by decide), mlookup_mset_ne _ _ _ _ (by decide),
    mlookup_mset_self]

theorem mlookup_signedArgs_adp (a2 : Dict) (ops : List SigOp)
    (lp la : List RawEntry) :
    mlookup (signedArgs a2 ops lp la) adaptive_fmts
      = some (Val.ventries (la.map (signEntry ops))) := by
  unfold signedArgs
  rw [mlookup_mixin_ne _ _ (by decide), mlookup_mset_self]

theorem initialize_stream_objects_cache (s : Session) (fmt : String) :
    ((initialize_stream_objects s fmt).1).streams_cache = s.streams_cache := by
  unfold initialize_stream_objects
  repeat' split
  all_goals rfl

theorem initialize_stream_objects_vid_info (s : Session) (fmt : String) :
    ((initialize_stream_objects s fmt).1).vid_info = s.vid_info := by
  unfold initialize_stream_objects
  repeat' split
  all_goals rfl

theorem init_streams_cache (s : Session) :
    (init s).1.streams_cache = s.streams_cache := by
  unfold init
  simp only []
  repeat' split
  all_goals
    first
    | rfl
    | (rw [initialize_stream_objects_cache, initialize_stream_objects_cache])
    | (rw [initialize_stream_objects_cache])

theorem init_vid_info_shape (s : Session) :
    (init s).2 ≠ none ∨ ∃ d, (init s).1.vid_info = Val.vdict d := by
  unfold init
  simp only []
  repeat' split
  all_goals
    first
    | (left; intro hc; exact Option.noConfusion hc)
    | (right; exact ⟨_, rfl⟩)
    | (right
       rw [initialize_stream_objects_vid_info, initialize_stream_objects_vid_info]
       exact ⟨_, rfl⟩)

theorem init_spec (s : Session) (q : String) (page : Page) (cfg : PlayerConfig)
    (ops : List SigOp) (d1 d2 a1 a2 : Dict) (lp la : List RawEntry)
    (hv : s.vid_info = Val.vstr q)
    (hw : s.watch_html = some page) (hp : page.embedded = some cfg)
    (hjs : s.js = some ⟨some ops⟩)
    (h1 : apply_descrambler (dictOfPairs (parse_qsl q)) progressive_fmts = Except.ok d1)
    (h2 : apply_descrambler d1 adaptive_fmts = Except.ok d2)
    (h3 : apply_descrambler cfg.args progressive_fmts = Except.ok a1)
    (h4 : apply_descrambler a1 adaptive_fmts = Except.ok a2)
    (hlp : mlookup a2 progressive_fmts = some (Val.ventries lp))
    (hla : mlookup a2 adaptive_fmts = some (Val.ventries la)) :
    init s =
      ({ s with
          vid_info := Val.vdict d2
          player_config := some ⟨signedArgs a2 ops lp la⟩
          fmt_streams :=
            (s.fmt_streams
              ++ (lp.map (signEntry ops)).map
                  (fun e => Stream.mk e ⟨signedArgs a2 ops lp la⟩ ()))
              ++ (la.map (signEntry ops)).map
                  (fun e => Stream.mk e ⟨signedArgs a2 ops lp la⟩ ()) },
        none) := by
  have hla3 : mlookup (mset a2 progressive_fmts
      (Val.ventries (lp.map (signEntry ops)))) adaptive_fmts
      = some (Val.ventries la) := by
    rw [mlookup_mset_ne _ _ _ _ (by decide), hla]
  have hP := mlookup_signedArgs_prog a2 ops lp la
  have hA := mlookup_signedArgs_adp a2 ops lp la
  rw [signedArgs] at hP hA
  simp only [init, hv, parse_qsl_val, hw, hp, get_ytplayer_config, h1, h2, h3,
    h4, hjs, apply_signature, deriveTransform, hlp, hla3,
    initialize_stream_objects, hP, hA, signedArgs]

/-- C1 (counterexample).  The claim says a second `init()` without an
intervening `prefetch()` re-derives and replaces the Stream Collection
(idempotent re-entry).  On a session whose first `init()` succeeded and
built one descriptor, the second `init()` does not re-derive anything:
it raises a type error, because the first call replaced `vid_info` with
a mapping and `parse_qsl` cannot decode a mapping. -/
theorem init_not_idempotent_counterexample :
    (init sampleSession).2 = none ∧
    (init sampleSession).1.fmt_streams.length = 1 ∧
    (init (init sampleSession).1).2 = some Err.typeError :=
  ⟨rfl, rfl, rfl⟩

/-- C1 (amended).  After any successful `init()`, calling `init()` a
second time without an intervening `prefetch()` does not re-derive the
Stream Collection: it fails with a type error at the metadata-parsing
step (`vid_info` now holds the mapping the first call built, not
query-string text) and returns the session exactly as the first
`init()` left it — in particular the stream list is unchanged. -/
theorem init_second_call_fails (s : Session) (h : (init s).2 = none) :
    init (init s).1 = ((init s).1, some Err.typeError) := by
  rcases init_vid_info_shape s with hbad | ⟨d, hd⟩
  · exact absurd h hbad
  · have hpq : parse_qsl_val (init s).1.vid_info
        = Except.error Err.typeError := by
      rw [hd]; rfl
    set t := (init s).1 with ht
    simp only [init, hpq]

/-- Witness for C1's amended theorem at `sampleSession`. -/
theorem init_second_call_fails_witness :
    (init sampleSession).2 = none ∧
    init (init sampleSession).1
      = ((init sampleSession).1, some Err.typeError) :=
  ⟨rfl, init_second_call_fails sampleSession rfl⟩

/-- C2 (code bug).  The claim says registering a callback succeeds and
updates the shared monostate.  In the code, both registration methods
assign through `self._monostate`, an attribute `__init__` never binds
(it binds `stream_monostate`), so every call raises `AttributeError`
and leaves the session — including its monostate — unchanged. -/
theorem register_callbacks_attribute_error (s : Session) (f : Callback) :
    register_on_progress_callback s f
      = (s, some (Err.attributeError "_monostate")) ∧
    register_on_complete_callback s f
      = (s, some (Err.attributeError "_monostate")) :=
  ⟨rfl, rfl⟩

/-- C3 (counterexample).  The claim says the signature transform is
applied to the access token of every Raw Manifest Entry in BOTH
descrambled manifest locations.  On `sampleSession` the transform is
`reverse` (sending `"AB"` to `"BA"`): after `init()` the config-derived
entry's token reads `"BA"`, but the metadata-derived (`vid_info`)
entry's token still reads `"AB"` — the metadata location is descrambled
but never signed. -/
theorem signature_skips_metadata_counterexample :
    (init sampleSession).2 = none ∧
    (init sampleSession).1.vid_info
      = Val.vdict [(progressive_fmts, Val.ventries [[("s", "AB")]]),
                   (adaptive_fmts, Val.ventries [])] ∧
    mlookup (configArgs (init sampleSession).1) progressive_fmts
      = some (Val.ventries [[("s", "BA"), ("url", "u")]]) ∧
    applyTransform [SigOp.reverse] "AB" = "BA" :=
  ⟨rfl, rfl, rfl, rfl⟩

/-- C3 (amended).  During `init()` the signature transform derived from
the script text is applied to the access token of every Raw Manifest
Entry of both manifest categories in the config-derived mapping only;
the metadata-derived mapping (`vid_info`) is descrambled but left
unsigned (its final value is exactly the descrambling output `d2`). -/
theorem signature_applied_to_config_only (s : Session) (q : String)
    (page : Page) (cfg : PlayerConfig) (ops : List SigOp)
    (d1 d2 a1 a2 : Dict)
    (hv : s.vid_info = Val.vstr q)
    (hw : s.watch_html = some page) (hp : page.embedded = some cfg)
    (hjs : s.js = some ⟨some ops⟩)
    (h1 : apply_descrambler (dictOfPairs (parse_qsl q)) progressive_fmts = Except.ok d1)
    (h2 : apply_descrambler d1 adaptive_fmts = Except.ok d2)
    (h3 : apply_descrambler cfg.args progressive_fmts = Except.ok a1)
    (h4 : apply_descrambler a1 adaptive_fmts = Except.ok a2) :
    ∃ lp la,
      mlookup a2 progressive_fmts = some (Val.ventries lp) ∧
      mlookup a2 adaptive_fmts = some (Val.ventries la) ∧
      (init s).2 = none ∧
      (init s).1.vid_info = Val.vdict d2 ∧
      mlookup (configArgs (init s).1) progressive_fmts
        = some (Val.ventries (lp.map (signEntry ops))) ∧
      mlookup (configArgs (init s).1) adaptive_fmts
        = some (Val.ventries (la.map (signEntry ops))) := by
  obtain ⟨lp, ha1⟩ := apply_descrambler_ok h3
  obtain ⟨la, ha2⟩ := apply_descrambler_ok h4
  have hlp : mlookup a2 progressive_fmts = some (Val.ventries lp) := by
    rw [ha2, mlookup_mset_ne _ _ _ _ (by decide), ha1, mlookup_mset_self]
  have hla : mlookup a2 adaptive_fmts = some (Val.ventries la) := by
    rw [ha2, mlookup_mset_self]
  refine ⟨lp, la, hlp, hla, ?_, ?_, ?_, ?_⟩ <;>
    rw [init_spec s q page cfg ops d1 d2 a1 a2 lp la hv hw hp hjs h1 h2 h3 h4
      hlp hla]
  · exact mlookup_signedArgs_prog a2 ops lp la
  · exact mlookup_signedArgs_adp a2 ops lp la

/-- Witness for C3's amended theorem at `sampleSession`. -/
theorem signature_applied_to_config_only_witness :
    sampleSession.vid_info = Val.vstr sampleQ ∧
    sampleSession.watch_html = some ⟨some sampleCfg⟩ ∧
    (Page.mk (some sampleCfg)).embedded = some sampleCfg ∧
    sampleSession.js = some ⟨some [SigOp.reverse]⟩ ∧
    apply_descrambler (dictOfPairs (parse_qsl sampleQ)) progressive_fmts
      = Except.ok sampleD1 ∧
    apply_descrambler sampleD1 adaptive_fmts = Except.ok sampleD2 ∧
    apply_descrambler sampleCfg.args progressive_fmts = Except.ok sampleA1 ∧
    apply_descrambler sampleA1 adaptive_fmts = Except.ok sampleA2 ∧
    (∃ lp la,
      mlookup sampleA2 progressive_fmts = some (Val.ventries lp) ∧
      mlookup sampleA2 adaptive_fmts = some (Val.ventries la) ∧
      (init sampleSession).2 = none ∧
      (init sampleSession).1.vid_info = Val.vdict sampleD2 ∧
      mlookup (configArgs (init sampleSession).1) progressive_fmts
        = some (Val.ventries (lp.map (signEntry [SigOp.reverse]))) ∧
      mlookup (configArgs (init sampleSession).1) adaptive_fmts
        = some (Val.ventries (la.map (signEntry [SigOp.reverse])))) :=
  ⟨rfl, rfl, rfl, rfl, rfl, rfl, rfl, rfl,
    signature_applied_to_config_only sampleSession sampleQ
      ⟨some sampleCfg⟩ sampleCfg [SigOp.reverse]
      sampleD1 sampleD2 sampleA1 sampleA2
      rfl rfl rfl rfl rfl rfl rfl rfl⟩

/-- C4.  When the signature transform cannot be derived from the
script text, `init()` fails with `SignatureResolutionError` and
constructs no Stream Descriptors: the session's stream list after the
failed call equals the list before it (the descriptor-construction
stage is never reached). -/
theorem init_signature_failure_no_streams (s : Session) (q : String)
    (page : Page) (cfg : PlayerConfig) (d1 d2 a1 a2 : Dict)
    (hv : s.vid_info = Val.vstr q)
    (hw : s.watch_html = some page) (hp : page.embedded = some cfg)
    (hjs : s.js = some ⟨none⟩)
    (h1 : apply_descrambler (dictOfPairs (parse_qsl q)) progressive_fmts = Except.ok d1)
    (h2 : apply_descrambler d1 adaptive_fmts = Except.ok d2)
    (h3 : apply_descrambler cfg.args progressive_fmts = Except.ok a1)
    (h4 : apply_descrambler a1 adaptive_fmts = Except.ok a2) :
    (init s).2 = some Err.signatureResolutionError ∧
    (init s).1.fmt_streams = s.fmt_streams := by
  simp only [init, hv, parse_qsl_val, hw, hp, get_ytplayer_config, h1, h2, h3,
    h4, hjs, apply_signature, deriveTransform]
  exact ⟨trivial, trivial⟩

/-- Witness for C4 at `badScriptSession`. -/
theorem init_signature_failure_no_streams_witness :
    badScriptSession.js = some ⟨none⟩ ∧
    ((init badScriptSession).2 = some Err.signatureResolutionError ∧
      (init badScriptSession).1.fmt_streams = badScriptSession.fmt_streams) :=
  ⟨rfl,
    init_signature_failure_no_streams badScriptSession sampleQ
      ⟨some sampleCfg⟩ sampleCfg sampleD1 sampleD2 sampleA1 sampleA2
      rfl rfl rfl rfl rfl rfl rfl rfl⟩

/-- C5.  When the page markup lacks the embedded player-configuration
marker, `init()` fails with `ConfigExtractionError` before any manifest
work: the whole resulting state is the input state with only `vid_info`
re-parsed into its (raw, undescrambled) key-value mapping — so no
manifest key in either location is descrambled, no signature is
applied, and the stream list and player config are unchanged. -/
theorem init_config_extraction_failure (s : Session) (q : String)
    (page : Page)
    (hv : s.vid_info = Val.vstr q)
    (hw : s.watch_html = some page) (hp : page.embedded = none) :
    init s = ({ s with vid_info := Val.vdict (dictOfPairs (parse_qsl q)) },
      some Err.configExtractionError) ∧
    (init s).1.fmt_streams = s.fmt_streams ∧
    (init s).1.player_config = s.player_config := by
  have h : init s
      = ({ s with vid_info := Val.vdict (dictOfPairs (parse_qsl q)) },
        some Err.configExtractionError) := by
    simp only [init, hv, parse_qsl_val, hw, hp, get_ytplayer_config]
  refine ⟨h, ?_, ?_⟩ <;> rw [h]

/-- Witness for C5 at `noMarkerSession`. -/
theorem init_config_extraction_failure_witness :
    noMarkerSession.watch_html = some ⟨none⟩ ∧
    (init noMarkerSession
        = ({ noMarkerSession with
              vid_info := Val.vdict (dictOfPairs (parse_qsl "a=b")) },
          some Err.configExtractionError) ∧
      (init noMarkerSession).1.fmt_streams = noMarkerSession.fmt_streams ∧
      (init noMarkerSession).1.player_config
        = noMarkerSession.player_config) :=
  ⟨rfl,
    init_config_extraction_failure noMarkerSession "a=b" ⟨none⟩
      rfl rfl rfl⟩

/-- C6.  The `streams` property is memoized: a second access returns
exactly the collection and session state of the first access (no
recomputation, no state change), and after one access the cache slot
holds the returned collection. -/
theorem streams_memoized (s : Session) :
    streams ((streams s).2) = ((streams s).1, (streams s).2) ∧
    ((streams s).2).streams_cache = some (streams s).1 := by
  cases hc : s.streams_cache with
  | some q => simp [streams, hc]
  | none => simp [streams, hc]

/-- C7.  `prefetch_init()` is observationally the sequential
composition of `prefetch()` and `init()`: on every environment and
session it produces exactly the state and outcome of calling
`prefetch()` and then `init()`. -/
theorem prefetch_init_is_composition (w : World) (s : Session) :
    prefetch_init w s = init (prefetch w s) := rfl

/-- C8.  A (successful) `prefetch()` populates all five fetched
artifacts — page markup, metadata-request URL, script URL, script text
and metadata payload — with the values fetched and derived from the
current environment, and a second `prefetch()` against a (possibly
different) environment re-fetches and overwrites every one of them:
its result does not depend on the artifacts stored by the first
call. -/
theorem prefetch_populates_and_overwrites (w w2 : World) (s : Session) :
    (prefetch w s).watch_html = some (w.pageOf s.watch_url) ∧
    (prefetch w s).vid_info_url
      = some (w.video_info_url_of s.video_id s.watch_url
          (w.pageOf s.watch_url)) ∧
    (prefetch w s).js_url = some (w.js_url_of (w.pageOf s.watch_url)) ∧
    (prefetch w s).js
      = some (w.scriptOf (w.js_url_of (w.pageOf s.watch_url))) ∧
    (prefetch w s).vid_info
      = Val.vstr (w.infoOf (w.video_info_url_of s.video_id s.watch_url
          (w.pageOf s.watch_url))) ∧
    prefetch w2 (prefetch w s) = prefetch w2 s :=
  ⟨rfl, rfl, rfl, rfl, rfl, rfl⟩

/-- C9.  When both manifest categories are empty or absent in both the
metadata mapping and the config args (and the pipeline is otherwise
healthy: config extractable, transform derivable), `init()` completes
without error and the resulting stream list of a previously empty
session holds zero Stream Descriptors. -/
theorem init_empty_manifests_no_streams (s : Session) (q : String)
    (page : Page) (cfg : PlayerConfig) (ops : List SigOp)
    (hv : s.vid_info = Val.vstr q)
    (hw : s.watch_html = some page) (hp : page.embedded = some cfg)
    (hjs : s.js = some ⟨some ops⟩)
    (hf : s.fmt_streams = [])
    (hm1 : manifestEmpty (mlookup (dictOfPairs (parse_qsl q)) progressive_fmts))
    (hm2 : manifestEmpty (mlookup (dictOfPairs (parse_qsl q)) adaptive_fmts))
    (hm3 : manifestEmpty (mlookup cfg.args progressive_fmts))
    (hm4 : manifestEmpty (mlookup cfg.args adaptive_fmts)) :
    (init s).2 = none ∧ (init s).1.fmt_streams = [] := by
  have e1 := descr_empty _ _ hm1
  have hm2' : manifestEmpty (mlookup (mset (dictOfPairs (parse_qsl q))
      progressive_fmts (Val.ventries [])) adaptive_fmts) := by
    rw [mlookup_mset_ne _ _ _ _ (by decide)]; exact hm2
  have e2 := descr_empty _ _ hm2'
  have e3 := descr_empty _ _ hm3
  have hm4' : manifestEmpty (mlookup (mset cfg.args
      progressive_fmts (Val.ventries [])) adaptive_fmts) := by
    rw [mlookup_mset_ne _ _ _ _ (by decide)]; exact hm4
  have e4 := descr_empty _ _ hm4'
  have hlp : mlookup (mset (mset cfg.args progressive_fmts (Val.ventries []))
      adaptive_fmts (Val.ventries [])) progressive_fmts
      = some (Val.ventries []) := by
    rw [mlookup_mset_ne _ _ _ _ (by decide), mlookup_mset_self]
  have hla : mlookup (mset (mset cfg.args progressive_fmts (Val.ventries []))
      adaptive_fmts (Val.ventries [])) adaptive_fmts
      = some (Val.ventries []) := mlookup_mset_self _ _ _
  rw [init_spec s q page cfg ops _ _ _ _ [] [] hv hw hp hjs e1 e2 e3 e4
    hlp hla]
  simp [hf]

/-- Witness for C9 at `emptyManifestSession`. -/
theorem init_empty_manifests_no_streams_witness :
    emptyManifestSession.vid_info = Val.vstr "" ∧
    mlookup sampleEmptyCfg.args progressive_fmts = none ∧
    mlookup sampleEmptyCfg.args adaptive_fmts = none ∧
    ((init emptyManifestSession).2 = none ∧
      (init emptyManifestSession).1.fmt_streams = []) :=
  ⟨rfl, rfl, rfl,
    init_empty_manifests_no_streams emptyManifestSession ""
      ⟨some sampleEmptyCfg⟩ sampleEmptyCfg [] rfl rfl rfl rfl rfl
      (Or.inl rfl) (Or.inl rfl) (Or.inl rfl) (Or.inl rfl)⟩

/-- C10.  If `streams` is accessed before `init()` has run, the
memoization caches the empty collection, and a later access — here
after a subsequent `init()` on the returned session — still yields that
cached empty collection rather than the freshly built descriptors
(`init` never clears the cache slot). -/
theorem streams_before_init_traps_empty (s : Session)
    (hc : s.streams_cache = none) (hf : s.fmt_streams = []) :
    (streams s).1 = ⟨[]⟩ ∧
    (streams ((init (streams s).2).1)).1 = ⟨[]⟩ := by
  have h1 : streams s = (⟨[]⟩, { s with streams_cache := some ⟨[]⟩ }) := by
    simp only [streams, hc, hf]
  have h2 : ((init (streams s).2).1).streams_cache
      = some (⟨[]⟩ : StreamQuery) := by
    rw [init_streams_cache, h1]
  constructor
  · rw [h1]
  · set u := (init (streams s).2).1 with hu
    simp only [streams, h2]

/-- Witness for C10 at `sampleSession`: the post-access `init()`
succeeds and builds one descriptor, yet `streams` still returns the
cached empty collection. -/
theorem streams_before_init_traps_empty_witness :
    sampleSession.streams_cache = none ∧
    sampleSession.fmt_streams = [] ∧
    ((streams sampleSession).1 = ⟨[]⟩ ∧
      (streams ((init (streams sampleSession).2).1)).1 = ⟨[]⟩) ∧
    (init (streams sampleSession).2).2 = none ∧
    (init (streams sampleSession).2).1.fmt_streams.length = 1 :=
  ⟨rfl, rfl, streams_before_init_traps_empty sampleSession rfl rfl, rfl, rfl⟩

end Pytube
